import Mathlib

/-!
# stripe-ml-webhook: the webhook handler of `src/pages/api/stripe-webhook.js`

A shallow embedding of the single request handler of the repository and the
properties of its specification.

* JavaScript values that flow through the handler are `JSVal`; the operators
  the handler uses on them (`||`, `&&`, `?.`, `typeof`, truthiness) are
  embedded with their JavaScript meaning.
* The code outside the repository (the Stripe client, `fetch`) is a parameter
  of the handler: a `Platform` gives the answer of every external call, and an
  answer is either a value or a thrown exception / rejected promise.
* A run of the handler yields an `Outcome`: the effects it performed, in
  order, and either the response it sent or the exception that left it.
-/

namespace StripeWebhook

/-! ## JavaScript values -/

/-- JavaScript values as they occur in parsed JSON payloads, plus `undefined`.
Numbers only occur as opaque payload data here; the handler tests them for
truthiness and passes them on, so integer-valued numbers are represented. -/
inductive JSVal where
  | undefined : JSVal
  | null : JSVal
  | bool (b : Bool) : JSVal
  | num (n : Int) : JSVal
  | str (s : String) : JSVal
  | arr (items : List JSVal) : JSVal
  | obj (fields : List (String × JSVal)) : JSVal

namespace JSVal

/-- JavaScript truthiness (`ToBoolean`): `undefined`, `null`, `false`, `0` and
the empty string are falsy, every array and object is truthy. -/
def truthy : JSVal → Bool
  | undefined => false
  | null => false
  | bool b => b
  | num n => n != 0
  | str s => s != ""
  | arr _ => true
  | obj _ => true

/-- The values on which a property access throws and `?.` short-circuits. -/
def isNullish : JSVal → Bool
  | undefined => true
  | null => true
  | _ => false

/-- The `typeof` operator. -/
def typeof : JSVal → String
  | undefined => "undefined"
  | null => "object"
  | bool _ => "boolean"
  | num _ => "number"
  | str _ => "string"
  | arr _ => "object"
  | obj _ => "object"

/-- Property read `v.k` on a value that is not nullish, for the keys the handler
reads (none of them is a prototype property): an own field of an object,
`undefined` otherwise. -/
def getProp (v : JSVal) (k : String) : JSVal :=
  match v with
  | obj fields => (fields.lookup k).getD undefined
  | _ => undefined

/-- Optional chaining `v?.k`. -/
def optMember (v : JSVal) (k : String) : JSVal :=
  if v.isNullish then undefined else v.getProp k

/-- Optional element access `v?.[0]`. -/
def optIndex0 (v : JSVal) : JSVal :=
  match v with
  | arr items => items.head?.getD undefined
  | obj fields => (fields.lookup "0").getD undefined
  | str s => if s = "" then undefined else str (s.take 1)
  | _ => undefined

/-- The value of `a || b`. Operands are values here, so evaluating `b` eagerly
is unobservable. -/
def or (a b : JSVal) : JSVal := if a.truthy then a else b

/-- The value of `a && b`. -/
def and (a b : JSVal) : JSVal := if a.truthy then b else a

end JSVal

/-! ## Requests, configuration and the outside world -/

/-- One `data` chunk of the request stream: a `Buffer` or a string. -/
inductive Chunk where
  | buffer (bytes : List Nat) : Chunk
  | text (s : String) : Chunk

/-- The incoming request: method, headers and the body stream, which emits its
chunks and then either `end` (`streamError = none`) or `error`. -/
structure Request where
  method : String
  headers : List (String × String)
  chunks : List Chunk
  streamError : Option String

/-- The four variables read from `process.env`; an unset variable is `none`
(JavaScript `undefined`). -/
structure Env where
  STRIPE_SECRET_KEY : Option String
  STRIPE_WEBHOOK_SECRET : Option String
  MAILERLITE_API_TOKEN : Option String
  MAILERLITE_GROUP_ID : Option String

/-- A verified Stripe event as the handler reads it: `event.type` and
`event.data.object`. -/
structure StripeEvent where
  type : String
  data_object : JSVal

/-- The Stripe client built by `new Stripe(...)`: the two methods the handler
calls, each answering with a value or with a thrown error message. -/
structure StripeClient where
  constructEvent : List Nat → Option String → Option String → Except String StripeEvent
  paymentIntentsRetrieve : JSVal → List String → Except String JSVal

/-- The second argument of `fetch`; `body` is the value handed to
`JSON.stringify`, after the keys whose value is `undefined` are dropped. -/
structure FetchInit where
  method : String
  headers : List (String × String)
  body : JSVal

/-- The response of `fetch`: its status and what `text()` resolves to. -/
structure FetchResponse where
  status : Nat
  text : Except String String

/-- The `ok` flag of a fetch response: the status is in the range 200 to 299. -/
def FetchResponse.ok (r : FetchResponse) : Bool :=
  decide (200 ≤ r.status) && decide (r.status ≤ 299)

/-- Everything outside the repository that the handler calls. -/
structure Platform where
  newStripe : Option String → String → Except String StripeClient
  fetch : String → FetchInit → Except String FetchResponse

/-! ## Outcomes -/

/-- An exception leaving the handler: a `TypeError` from reading property
`reading` of a nullish value, or the error of a failed external call. -/
inductive Thrown where
  | typeError (reading : String) : Thrown
  | rejected (msg : String) : Thrown

/-- The observable steps of a run, in order. -/
inductive Effect where
  | constructEvent (rawBody : List Nat) (sig secret : Option String) : Effect
  | consoleError (args : List JSVal) : Effect
  | consoleWarn (args : List JSVal) : Effect
  | paymentIntentsRetrieve (id : JSVal) (expand : List String) : Effect
  | fetch (url : String) (init : FetchInit) : Effect
  | responseText : Effect

/-- A response body: text (`end`, `send`) or a JSON value (`json`). -/
inductive Body where
  | text (s : String) : Body
  | json (v : JSVal) : Body

/-- The response written to `res`. -/
structure Response where
  status : Nat
  headers : List (String × String)
  body : Body

/-- How a run ends: a response was sent, or an exception propagated. -/
inductive Result where
  | responded (r : Response) : Result
  | threw (e : Thrown) : Result

/-- A run of the handler. -/
structure Outcome where
  effects : List Effect
  result : Result

/-- Whether an effect is the secondary payment-intent lookup. -/
def Effect.isLookup : Effect → Bool
  | .paymentIntentsRetrieve _ _ => true
  | _ => false

/-- Whether an effect is the outbound subscriber upsert. -/
def Effect.isUpsert : Effect → Bool
  | .fetch _ _ => true
  | _ => false

/-- Whether an effect is a signature verification. -/
def Effect.isVerification : Effect → Bool
  | .constructEvent _ _ _ => true
  | _ => false

/-! ## The handler -/

/-- The conversion `Buffer.isBuffer(c) ? c : Buffer.from(c)` of a chunk: a string
chunk becomes its UTF-8 bytes. -/
def Chunk.toBuffer : Chunk → List Nat
  | .buffer bytes => bytes
  | .text s => s.toUTF8.toList.map UInt8.toNat

/-- The function `readRawBody`: the concatenation of the chunks when the stream
ends, the stream error when it fails. -/
def readRawBody (req : Request) : Except String (List Nat) :=
  match req.streamError with
  | some e => .error e
  | none => .ok (req.chunks.map Chunk.toBuffer).flatten

/-- The `expand` option of the payment-intent lookup. -/
def expandOption : List String := ["customer", "charges.data.billing_details"]

/-- The MailerLite endpoint. -/
def subscribersUrl : String := "https://connect.mailerlite.com/api/subscribers"

/-- Line 44: `session?.customer_details?.email || session?.customer_email || null`. -/
def checkoutEmail (session : JSVal) : JSVal :=
  (((session.optMember "customer_details").optMember "email").or
    (session.optMember "customer_email")).or .null

/-- Line 45: `session?.customer_details?.name || null`. -/
def checkoutName (session : JSVal) : JSVal :=
  ((session.optMember "customer_details").optMember "name").or .null

/-- The guarded read `pi.customer && typeof pi.customer === "object" && pi.customer.k`
of lines 50 and 54. The last operand is only reached for a truthy, hence
non-nullish, customer. -/
def customerField (pi : JSVal) (k : String) : JSVal :=
  (((pi.getProp "customer").and
    (.bool (decide ((pi.getProp "customer").typeof = "object")))).and
    ((pi.getProp "customer").getProp k))

/-- The chain `pi.charges?.data?.[0]?.billing_details?.k` of lines 52 and 55. -/
def firstChargeBilling (pi : JSVal) (k : String) : JSVal :=
  (((((pi.getProp "charges").optMember "data").optIndex0).optMember "billing_details").optMember k)

/-- Lines 50 to 53, for a payment intent that is not nullish. -/
def paymentIntentEmail (pi : JSVal) : JSVal :=
  ((((customerField pi "email").or (pi.getProp "receipt_email")).or
    (firstChargeBilling pi "email")).or .null)

/-- Lines 54 to 56, for a payment intent that is not nullish. -/
def paymentIntentName (pi : JSVal) : JSVal :=
  (((customerField pi "name").or (firstChargeBilling pi "name")).or .null)

/-- What lines 39 to 59 end in: the early `ignored` return, an exception, or the
resolved `email` and `name`. -/
inductive Resolution where
  | ignored (kind : String) : Resolution
  | threw (e : Thrown) : Resolution
  | contact (email name : JSVal) : Resolution

/-- Lines 39 to 59: the dispatch on `event.type`. -/
def resolveContact (stripe : StripeClient) (event : StripeEvent) : List Effect × Resolution :=
  if event.type = "checkout.session.completed" then
    ([], .contact (checkoutEmail event.data_object) (checkoutName event.data_object))
  else if event.type = "payment_intent.succeeded" then
    if event.data_object.isNullish then ([], .threw (.typeError "id"))
    else
      match stripe.paymentIntentsRetrieve (event.data_object.getProp "id") expandOption with
      | .error e =>
        ([.paymentIntentsRetrieve (event.data_object.getProp "id") expandOption],
          .threw (.rejected e))
      | .ok pi =>
        if pi.isNullish then
          ([.paymentIntentsRetrieve (event.data_object.getProp "id") expandOption],
            .threw (.typeError "customer"))
        else
          ([.paymentIntentsRetrieve (event.data_object.getProp "id") expandOption],
            .contact (paymentIntentEmail pi) (paymentIntentName pi))
  else ([], .ignored event.type)

/-- The `fields` object of the upsert body: `name || undefined`, and a key whose
value is `undefined` is not serialised. -/
def upsertFields (name : JSVal) : JSVal :=
  if name.truthy then .obj [("name", name)] else .obj []

/-- The element of `groups`: an unset variable is serialised as `null`. -/
def groupEntry (env : Env) : JSVal :=
  match env.MAILERLITE_GROUP_ID with
  | some g => .str g
  | none => .null

/-- The template string of the Authorization header. -/
def bearer (env : Env) : String :=
  "Bearer " ++ env.MAILERLITE_API_TOKEN.getD "undefined"

/-- Lines 66 to 77: the request of the subscriber upsert. -/
def upsertInit (env : Env) (email name : JSVal) : FetchInit :=
  { method := "POST"
    headers := [("Authorization", bearer env), ("Content-Type", "application/json")]
    body := .obj [("email", email), ("fields", upsertFields name),
                  ("groups", .arr [groupEntry env])] }

/-- The response `res.status(200).json(v)`. -/
def json200 (v : JSVal) : Response :=
  { status := 200, headers := [], body := .json v }

/-- Lines 61 to 85: the missing-email return and the downstream sync. -/
def sync (P : Platform) (env : Env) (event : StripeEvent) (email name : JSVal) : Outcome :=
  if !email.truthy then
    { effects := [.consoleWarn [.str "No email in event, skipping:", .str event.type]]
      result := .responded
        (json200 (.obj [("received", .bool true), ("skipped", .str "no_email")])) }
  else
    match P.fetch subscribersUrl (upsertInit env email name) with
    | .error e =>
      { effects := [.fetch subscribersUrl (upsertInit env email name)]
        result := .threw (.rejected e) }
    | .ok mlResp =>
      if !mlResp.ok then
        match mlResp.text with
        | .error e =>
          { effects := [.fetch subscribersUrl (upsertInit env email name), .responseText]
            result := .threw (.rejected e) }
        | .ok text =>
          { effects := [.fetch subscribersUrl (upsertInit env email name), .responseText,
              .consoleError [.str "MailerLite error:", .num mlResp.status, .str text]]
            result := .responded
              (json200 (.obj [("received", .bool true),
                              ("mailerlite_error", .num mlResp.status)])) }
      else
        { effects := [.fetch subscribersUrl (upsertInit env email name)]
          result := .responded
            (json200 (.obj [("received", .bool true), ("synced", .bool true)])) }

/-- Lines 38 to 85: what the handler does with a verified event. -/
def processEvent (P : Platform) (env : Env) (stripe : StripeClient) (event : StripeEvent) :
    Outcome :=
  match resolveContact stripe event with
  | (effs, .ignored kind) =>
    { effects := effs
      result := .responded
        (json200 (.obj [("received", .bool true), ("ignored", .str kind)])) }
  | (effs, .threw e) => { effects := effs, result := .threw e }
  | (effs, .contact email name) =>
    { effects := effs ++ (sync P env event email name).effects
      result := (sync P env event email name).result }

/-- The default export `handler(req, res)`. -/
def handler (P : Platform) (env : Env) (req : Request) : Outcome :=
  if req.method ≠ "POST" then
    { effects := []
      result := .responded
        { status := 405, headers := [("Allow", "POST")], body := .text "Method Not Allowed" } }
  else
    match P.newStripe env.STRIPE_SECRET_KEY "2024-06-20" with
    | .error e => { effects := [], result := .threw (.rejected e) }
    | .ok stripe =>
      match readRawBody req with
      | .error e => { effects := [], result := .threw (.rejected e) }
      | .ok rawBody =>
        match stripe.constructEvent rawBody (req.headers.lookup "stripe-signature")
            env.STRIPE_WEBHOOK_SECRET with
        | .error msg =>
          { effects :=
              [.constructEvent rawBody (req.headers.lookup "stripe-signature")
                  env.STRIPE_WEBHOOK_SECRET,
                .consoleError [.str "Webhook signature verification failed:", .str msg]]
            result := .responded
              { status := 400, headers := [], body := .text ("Webhook Error: " ++ msg) } }
        | .ok event =>
          { effects :=
              .constructEvent rawBody (req.headers.lookup "stripe-signature")
                  env.STRIPE_WEBHOOK_SECRET :: (processEvent P env stripe event).effects
            result := (processEvent P env stripe event).result }

/-! ## Verified events and the resolution order of the specification -/

/-- The request is a POST whose body `rawBody` was read in full and whose
signature verification, by the client built from the configuration, produced
`event`. -/
def Verified (P : Platform) (env : Env) (req : Request) (stripe : StripeClient)
    (rawBody : List Nat) (event : StripeEvent) : Prop :=
  req.method = "POST" ∧
  P.newStripe env.STRIPE_SECRET_KEY "2024-06-20" = .ok stripe ∧
  readRawBody req = .ok rawBody ∧
  stripe.constructEvent rawBody (req.headers.lookup "stripe-signature")
    env.STRIPE_WEBHOOK_SECRET = .ok event

/-- The request is a POST whose signature verification throws `msg`. -/
def SignatureFails (P : Platform) (env : Env) (req : Request) (msg : String) : Prop :=
  req.method = "POST" ∧
  ∃ stripe rawBody,
    P.newStripe env.STRIPE_SECRET_KEY "2024-06-20" = .ok stripe ∧
    readRawBody req = .ok rawBody ∧
    stripe.constructEvent rawBody (req.headers.lookup "stripe-signature")
      env.STRIPE_WEBHOOK_SECRET = .error msg

/-- The first candidate that is present and non-empty, in the order given, if
there is one. Non-empty is JavaScript truthiness, which for a string means
that it differs from the empty string. -/
def firstNonEmpty : List JSVal → Option JSVal
  | [] => none
  | v :: rest => if v.truthy then some v else firstNonEmpty rest

/-- Field `k` of the customer when the customer is an expanded object; nothing
when it is an id string, null or absent. -/
def expandedCustomer (pi : JSVal) (k : String) : JSVal :=
  match pi.getProp "customer" with
  | .obj fields => (fields.lookup k).getD .undefined
  | _ => .undefined

/-- The email resolution order for a payment intent, in the words of the
specification. -/
def specPaymentEmail (pi : JSVal) : Option JSVal :=
  firstNonEmpty [expandedCustomer pi "email", pi.getProp "receipt_email",
    firstChargeBilling pi "email"]

/-- The name resolution order for a payment intent, in the words of the
specification. -/
def specPaymentName (pi : JSVal) : Option JSVal :=
  firstNonEmpty [expandedCustomer pi "name", firstChargeBilling pi "name"]

/-- The email resolution order for a checkout session, in the words of the
specification. -/
def specCheckoutEmail (session : JSVal) : Option JSVal :=
  firstNonEmpty [(session.optMember "customer_details").optMember "email",
    session.optMember "customer_email"]

/-- The single name source of a checkout session. -/
def specCheckoutName (session : JSVal) : Option JSVal :=
  firstNonEmpty [(session.optMember "customer_details").optMember "name"]

/-- The four bodies a 200 response can carry. -/
def IsSyncResult (b : Body) : Prop :=
  b = .json (.obj [("received", .bool true), ("synced", .bool true)]) ∨
  b = .json (.obj [("received", .bool true), ("skipped", .str "no_email")]) ∨
  (∃ kind : String, b = .json (.obj [("received", .bool true), ("ignored", .str kind)])) ∨
  (∃ code : Nat, b = .json (.obj [("received", .bool true), ("mailerlite_error", .num code)]))

/-- The subscriber upsert throws: `fetch` rejects, or the answer has a
non-success status and reading its text rejects. -/
def UpsertFails (P : Platform) (env : Env) (email name : JSVal) : Prop :=
  (∃ msg, P.fetch "https://connect.mailerlite.com/api/subscribers"
      (upsertInit env email name) = .error msg) ∨
  (∃ resp msg, P.fetch "https://connect.mailerlite.com/api/subscribers"
      (upsertInit env email name) = .ok resp ∧ resp.ok = false ∧ resp.text = .error msg)

/-- The payment-intent lookup of a payment_intent.succeeded event throws: the
event object is null or undefined, the lookup itself throws, or it yields null
or undefined. -/
def LookupFails (stripe : StripeClient) (event : StripeEvent) : Prop :=
  event.type = "payment_intent.succeeded" ∧
  (event.data_object.isNullish = true ∨
    (∃ msg, stripe.paymentIntentsRetrieve (event.data_object.getProp "id")
      ["customer", "charges.data.billing_details"] = .error msg) ∨
    (∃ pi, stripe.paymentIntentsRetrieve (event.data_object.getProp "id")
      ["customer", "charges.data.billing_details"] = .ok pi ∧ pi.isNullish = true))

/-- One of the external steps the handler awaits outside any `try` throws on
this POST: building the Stripe client, reading the body, the payment-intent
lookup, or the subscriber upsert for a resolved non-empty email. -/
def ExternalFailure (P : Platform) (env : Env) (req : Request) : Prop :=
  req.method = "POST" ∧
  ((∃ msg, P.newStripe env.STRIPE_SECRET_KEY "2024-06-20" = .error msg) ∨
    (∃ stripe msg, P.newStripe env.STRIPE_SECRET_KEY "2024-06-20" = .ok stripe ∧
      readRawBody req = .error msg) ∨
    (∃ stripe rawBody event, Verified P env req stripe rawBody event ∧
      (LookupFails stripe event ∨
        ∃ effs e n, resolveContact stripe event = (effs, .contact e n) ∧
          e.truthy = true ∧ UpsertFails P env e n)))

/-! ## The handler inside a running process -/

/-- What the Node process keeps from one invocation of the handler to the
next: `process.env` and the bindings of the module scope. -/
structure ProcessState where
  env : Env
  moduleScope : List (String × JSVal)

/-- The module scope once the module is loaded: the exported constant `config`
of lines 3 to 5. -/
def loadedModuleScope : List (String × JSVal) :=
  [("config", .obj [("api", .obj [("bodyParser", .bool false)])])]

/-- The services outside the process as a state machine: in state `s` they
answer as `answers s`, and every effect the handler performs moves them on. -/
structure Outside (σ : Type) where
  answers : σ → Platform
  react : σ → Effect → σ

/-- The state of the services after a sequence of effects. -/
def Outside.settle {σ : Type} (W : Outside σ) (s : σ) (effs : List Effect) : σ :=
  effs.foldl W.react s

/-- One invocation of `handler(req, res)` in process state `g` against services
in state `s`, statement by statement as in lines 16 to 86: the configuration is
read from `process.env` at the point of use, the Stripe client answers as the
services do when it is built, the upsert is answered by the services as they
are after the lookup, and the states the invocation leaves behind are
returned. No statement of the handler assigns to `process.env` or to a
binding of the module scope. -/
def invoke {σ : Type} (W : Outside σ) (req : Request) (g : ProcessState) (s : σ) :
    Outcome × ProcessState × σ :=
  if req.method ≠ "POST" then
    ({ effects := []
       result := .responded
        { status := 405, headers := [("Allow", "POST")], body := .text "Method Not Allowed" } },
      g, s)
  else
    match (W.answers s).newStripe g.env.STRIPE_SECRET_KEY "2024-06-20" with
    | .error e => ({ effects := [], result := .threw (.rejected e) }, g, s)
    | .ok stripe =>
      match readRawBody req with
      | .error e => ({ effects := [], result := .threw (.rejected e) }, g, s)
      | .ok rawBody =>
        match stripe.constructEvent rawBody (req.headers.lookup "stripe-signature")
            g.env.STRIPE_WEBHOOK_SECRET with
        | .error msg =>
          ({ effects :=
              [.constructEvent rawBody (req.headers.lookup "stripe-signature")
                  g.env.STRIPE_WEBHOOK_SECRET,
                .consoleError [.str "Webhook signature verification failed:", .str msg]]
             result := .responded
              { status := 400, headers := [], body := .text ("Webhook Error: " ++ msg) } },
            g,
            W.settle s
              [.constructEvent rawBody (req.headers.lookup "stripe-signature")
                  g.env.STRIPE_WEBHOOK_SECRET,
                .consoleError [.str "Webhook signature verification failed:", .str msg]])
        | .ok event =>
          match resolveContact stripe event with
          | (effs, .ignored kind) =>
            ({ effects :=
                .constructEvent rawBody (req.headers.lookup "stripe-signature")
                  g.env.STRIPE_WEBHOOK_SECRET :: effs
               result := .responded
                (json200 (.obj [("received", .bool true), ("ignored", .str kind)])) },
              g,
              W.settle s
                (.constructEvent rawBody (req.headers.lookup "stripe-signature")
                  g.env.STRIPE_WEBHOOK_SECRET :: effs))
          | (effs, .threw e) =>
            ({ effects :=
                .constructEvent rawBody (req.headers.lookup "stripe-signature")
                  g.env.STRIPE_WEBHOOK_SECRET :: effs
               result := .threw e },
              g,
              W.settle s
                (.constructEvent rawBody (req.headers.lookup "stripe-signature")
                  g.env.STRIPE_WEBHOOK_SECRET :: effs))
          | (effs, .contact email name) =>
            ({ effects :=
                .constructEvent rawBody (req.headers.lookup "stripe-signature")
                  g.env.STRIPE_WEBHOOK_SECRET ::
                  (effs ++
                    (sync (W.answers (W.settle s
                      (.constructEvent rawBody (req.headers.lookup "stripe-signature")
                        g.env.STRIPE_WEBHOOK_SECRET :: effs))) g.env event email name).effects)
               result :=
                (sync (W.answers (W.settle s
                  (.constructEvent rawBody (req.headers.lookup "stripe-signature")
                    g.env.STRIPE_WEBHOOK_SECRET :: effs))) g.env event email name).result },
              g,
              W.settle (W.settle s
                  (.constructEvent rawBody (req.headers.lookup "stripe-signature")
                    g.env.STRIPE_WEBHOOK_SECRET :: effs))
                (sync (W.answers (W.settle s
                  (.constructEvent rawBody (req.headers.lookup "stripe-signature")
                    g.env.STRIPE_WEBHOOK_SECRET :: effs))) g.env event email name).effects)

/-! ## Fixtures -/

/-- A complete configuration. -/
def sampleEnv : Env :=
  { STRIPE_SECRET_KEY := some "sk_test_1"
    STRIPE_WEBHOOK_SECRET := some "whsec_1"
    MAILERLITE_API_TOKEN := some "ml_token_1"
    MAILERLITE_GROUP_ID := some "42" }

/-- A Stripe client that accepts exactly the signature `t=1,v1=good`, yields
`event` for it, and answers every lookup with `lookup`. -/
def sampleStripe (event : StripeEvent) (lookup : Except String JSVal) : StripeClient :=
  { constructEvent := fun _ sig _ =>
      if sig = some "t=1,v1=good" then .ok event
      else .error "No signatures found matching the expected signature for payload"
    paymentIntentsRetrieve := fun _ _ => lookup }

/-- An outside world built from `sampleStripe` whose `fetch` always answers
`answer`. -/
def samplePlatform (event : StripeEvent) (lookup : Except String JSVal)
    (answer : Except String FetchResponse) : Platform :=
  { newStripe := fun _ _ => .ok (sampleStripe event lookup)
    fetch := fun _ _ => answer }

/-- A POST carrying the accepted signature. -/
def signedPost : Request :=
  { method := "POST"
    headers := [("stripe-signature", "t=1,v1=good")]
    chunks := [.buffer [123, 125]]
    streamError := none }

/-- A POST carrying a signature that is not accepted. -/
def forgedPost : Request :=
  { method := "POST"
    headers := [("stripe-signature", "t=1,v1=forged")]
    chunks := [.buffer [123, 125]]
    streamError := none }

/-- A GET carrying the accepted signature. -/
def signedGet : Request :=
  { method := "GET"
    headers := [("stripe-signature", "t=1,v1=good")]
    chunks := [.buffer [123, 125]]
    streamError := none }

/-- A checkout-completed event with `customer_details.email` and
`customer_details.name`. -/
def checkoutEvent : StripeEvent :=
  { type := "checkout.session.completed"
    data_object := .obj [("customer_details",
      .obj [("email", .str "a@x.com"), ("name", .str "A")])] }

/-- A checkout-completed event whose email fields are null and empty. -/
def checkoutNoEmail : StripeEvent :=
  { type := "checkout.session.completed"
    data_object := .obj [("customer_details", .obj [("email", .null), ("name", .str "A")]),
      ("customer_email", .str "")] }

/-- A payment-succeeded event; its own payload carries no contact data. -/
def paymentEvent : StripeEvent :=
  { type := "payment_intent.succeeded"
    data_object := .obj [("id", .str "pi_1"), ("customer", .str "cus_1")] }

/-- A looked-up payment intent whose customer is an unexpanded id. -/
def paymentIntentUnexpanded : JSVal :=
  .obj [("id", .str "pi_1"), ("customer", .str "cus_1"), ("receipt_email", .str ""),
    ("charges", .obj [("data", .arr [.obj [("billing_details",
      .obj [("email", .str "b@x.com"), ("name", .str "B")])]])])]

/-- An event of a kind the handler does not process, although it carries an
email. -/
def invoiceEvent : StripeEvent :=
  { type := "invoice.paid"
    data_object := .obj [("customer_email", .str "a@x.com")] }

/-- A successful answer of the subscriber endpoint. -/
def createdResponse : FetchResponse := { status := 201, text := .ok "" }

/-- A validation failure of the subscriber endpoint. -/
def unprocessableResponse : FetchResponse :=
  { status := 422, text := .ok "The given data was invalid." }

/-- A validation failure whose body cannot be read: the connection ends before
the text arrives. -/
def truncatedResponse : FetchResponse := { status := 422, text := .error "terminated" }

/-- The outside world of a checkout delivery whose upsert succeeds. -/
def checkoutPlatform : Platform :=
  samplePlatform checkoutEvent (.error "unused") (.ok createdResponse)

/-- The outside world of a payment delivery: the lookup returns the unexpanded
payment intent, the upsert succeeds. -/
def paymentPlatform : Platform :=
  samplePlatform paymentEvent (.ok paymentIntentUnexpanded) (.ok createdResponse)

/-- The outside world of a payment delivery whose lookup fails. -/
def lookupDownPlatform : Platform :=
  samplePlatform paymentEvent (.error "No such payment_intent: pi_1") (.ok createdResponse)

/-- The process right after the module is loaded, with the complete
configuration. -/
def sampleProcess : ProcessState :=
  { env := sampleEnv, moduleScope := loadedModuleScope }

/-- A subscriber service that records the email of every upsert it receives,
in order, and answers every call as `checkoutPlatform` does. -/
def recordingService : Outside (List JSVal) :=
  { answers := fun _ => checkoutPlatform
    react := fun s eff =>
      match eff with
      | .fetch _ init => s ++ [init.body.getProp "email"]
      | _ => s }

/-! ## Auxiliary lemmas -/

theorem truthy_str_iff (s : String) : (JSVal.str s).truthy = true ↔ s ≠ "" := by
  simp [JSVal.truthy]

theorem handler_of_verified {P : Platform} {env : Env} {req : Request} {stripe : StripeClient}
    {rawBody : List Nat} {event : StripeEvent} (h : Verified P env req stripe rawBody event) :
    handler P env req =
      { effects :=
          .constructEvent rawBody (req.headers.lookup "stripe-signature")
              env.STRIPE_WEBHOOK_SECRET :: (processEvent P env stripe event).effects
        result := (processEvent P env stripe event).result } := by
  obtain ⟨hm, hs, hb, hv⟩ := h
  simp [handler, hm, hs, hb, hv]

theorem sync_lookups (P : Platform) (env : Env) (event : StripeEvent) (email name : JSVal) :
    (sync P env event email name).effects.filter Effect.isLookup = [] := by
  unfold sync
  split
  · simp [Effect.isLookup]
  · split
    · simp [Effect.isLookup]
    · split
      · split <;> simp [Effect.isLookup]
      · simp [Effect.isLookup]

theorem customerField_or (pi : JSVal) (k : String) (x : JSVal) :
    (customerField pi k).or x = (expandedCustomer pi k).or x := by
  unfold customerField expandedCustomer
  cases hc : pi.getProp "customer" with
  | undefined => simp [JSVal.and, JSVal.or, JSVal.truthy]
  | null => simp [JSVal.and, JSVal.or, JSVal.truthy]
  | bool b => cases b <;> simp [JSVal.and, JSVal.or, JSVal.truthy, JSVal.typeof]
  | num n =>
    by_cases hn : n = 0 <;> simp [JSVal.and, JSVal.or, JSVal.truthy, JSVal.typeof, hn]
  | str s =>
    by_cases hs : s = "" <;> simp [JSVal.and, JSVal.or, JSVal.truthy, JSVal.typeof, hs]
  | arr items => simp [JSVal.and, JSVal.or, JSVal.truthy, JSVal.typeof, JSVal.getProp]
  | obj fields => simp [JSVal.and, JSVal.or, JSVal.truthy, JSVal.typeof, JSVal.getProp]

theorem or_null_eq_first (a : JSVal) :
    a.or .null = (firstNonEmpty [a]).getD .null := by
  by_cases ha : a.truthy = true <;> simp [JSVal.or, firstNonEmpty, ha]

theorem or_or_null_eq_first (a b : JSVal) :
    (a.or b).or .null = (firstNonEmpty [a, b]).getD .null := by
  by_cases ha : a.truthy = true <;> by_cases hb : b.truthy = true <;>
    simp [JSVal.or, firstNonEmpty, ha, hb]

theorem or_or_or_null_eq_first (a b c : JSVal) :
    ((a.or b).or c).or .null = (firstNonEmpty [a, b, c]).getD .null := by
  by_cases ha : a.truthy = true <;> by_cases hb : b.truthy = true <;>
    by_cases hc : c.truthy = true <;> simp [JSVal.or, firstNonEmpty, ha, hb, hc]

theorem paymentIntentEmail_eq_spec (pi : JSVal) :
    paymentIntentEmail pi = (specPaymentEmail pi).getD .null := by
  unfold paymentIntentEmail specPaymentEmail
  rw [customerField_or, or_or_or_null_eq_first]

theorem paymentIntentName_eq_spec (pi : JSVal) :
    paymentIntentName pi = (specPaymentName pi).getD .null := by
  unfold paymentIntentName specPaymentName
  rw [customerField_or, or_or_null_eq_first]

theorem checkoutEmail_eq_spec (session : JSVal) :
    checkoutEmail session = (specCheckoutEmail session).getD .null := by
  unfold checkoutEmail specCheckoutEmail
  rw [or_or_null_eq_first]

theorem checkoutName_eq_spec (session : JSVal) :
    checkoutName session = (specCheckoutName session).getD .null := by
  unfold checkoutName specCheckoutName
  rw [or_null_eq_first]

theorem resolveContact_upserts (stripe : StripeClient) (event : StripeEvent) :
    (resolveContact stripe event).1.filter Effect.isUpsert = [] := by
  unfold resolveContact
  split
  · rfl
  · split
    · split
      · rfl
      · split
        · rfl
        · split <;> rfl
    · rfl

theorem sync_of_no_email (P : Platform) (env : Env) (event : StripeEvent) (email name : JSVal)
    (he : email.truthy = false) :
    sync P env event email name =
      { effects := [.consoleWarn [.str "No email in event, skipping:", .str event.type]]
        result := .responded
          (json200 (.obj [("received", .bool true), ("skipped", .str "no_email")])) } := by
  simp [sync, he]

theorem sync_upserts_of_email (P : Platform) (env : Env) (event : StripeEvent)
    (email name : JSVal) (he : email.truthy = true) :
    (sync P env event email name).effects.filter Effect.isUpsert =
      [.fetch subscribersUrl (upsertInit env email name)] := by
  unfold sync
  simp only [he, Bool.not_true, Bool.false_eq_true, if_false]
  split
  · simp [Effect.isUpsert]
  · split
    · split <;> simp [Effect.isUpsert]
    · simp [Effect.isUpsert]

theorem processEvent_of_contact {P : Platform} {env : Env} {stripe : StripeClient}
    {event : StripeEvent} {effs : List Effect} {email name : JSVal}
    (h : resolveContact stripe event = (effs, .contact email name)) :
    processEvent P env stripe event =
      { effects := effs ++ (sync P env event email name).effects
        result := (sync P env event email name).result } := by
  simp [processEvent, h]

theorem upserts_of_contact {P : Platform} {env : Env} {req : Request} {stripe : StripeClient}
    {rawBody : List Nat} {event : StripeEvent} {effs : List Effect} {email name : JSVal}
    (hv : Verified P env req stripe rawBody event)
    (h : resolveContact stripe event = (effs, .contact email name)) :
    (handler P env req).effects.filter Effect.isUpsert =
      (sync P env event email name).effects.filter Effect.isUpsert := by
  have h1 := resolveContact_upserts stripe event
  rw [h] at h1
  rw [handler_of_verified hv, processEvent_of_contact h]
  have h2 : effs.filter Effect.isUpsert = [] := h1
  simp [List.filter_cons, Effect.isUpsert, List.filter_append, h2]

theorem fetch_mem_sync {P : Platform} {env : Env} {event : StripeEvent} {email name : JSVal}
    {url : String} {init : FetchInit}
    (h : Effect.fetch url init ∈ (sync P env event email name).effects) :
    email.truthy = true ∧ init = upsertInit env email name := by
  unfold sync at h
  split at h
  · simp at h
  · rename_i he
    have he2 : email.truthy = true := by simpa using he
    refine ⟨he2, ?_⟩
    split at h
    · simp at h; exact h.2
    · split at h
      · split at h <;> simp at h <;> exact h.2
      · simp at h; exact h.2

theorem fetch_not_mem_resolve (stripe : StripeClient) (event : StripeEvent) (url : String)
    (init : FetchInit) : Effect.fetch url init ∉ (resolveContact stripe event).1 := by
  intro h
  have h1 := resolveContact_upserts stripe event
  rw [List.filter_eq_nil_iff] at h1
  exact h1 _ h rfl

theorem sync_result (P : Platform) (env : Env) (event : StripeEvent) (email name : JSVal)
    (r : Response) (h : (sync P env event email name).result = .responded r) :
    r.status = 200 ∧ IsSyncResult r.body := by
  unfold sync at h
  split at h
  · injection h with h
    subst h
    exact ⟨rfl, Or.inr (Or.inl rfl)⟩
  · split at h
    · cases h
    · split at h
      · split at h
        · cases h
        · injection h with h
          subst h
          exact ⟨rfl, Or.inr (Or.inr (Or.inr ⟨_, rfl⟩))⟩
      · injection h with h
        subst h
        exact ⟨rfl, Or.inl rfl⟩

theorem processEvent_result (P : Platform) (env : Env) (stripe : StripeClient)
    (event : StripeEvent) (r : Response)
    (h : (processEvent P env stripe event).result = .responded r) :
    r.status = 200 ∧ IsSyncResult r.body := by
  unfold processEvent at h
  split at h
  · injection h with h
    subst h
    exact ⟨rfl, Or.inr (Or.inr (Or.inl ⟨_, rfl⟩))⟩
  · cases h
  · exact sync_result _ _ _ _ _ _ h

theorem handler_of_signature_fails {P : Platform} {env : Env} {req : Request} {msg : String}
    (h : SignatureFails P env req msg) :
    (handler P env req).result = .responded
      { status := 400, headers := [], body := .text ("Webhook Error: " ++ msg) } := by
  obtain ⟨hm, stripe, raw, hs, hb, hv⟩ := h
  simp [handler, hm, hs, hb, hv]

theorem handler_cases (P : Platform) (env : Env) (req : Request) :
    (req.method ≠ "POST" ∧
      handler P env req =
        { effects := []
          result := .responded
            { status := 405, headers := [("Allow", "POST")]
              body := .text "Method Not Allowed" } }) ∨
    (req.method = "POST" ∧ ∃ e, handler P env req = { effects := [], result := .threw e }) ∨
    (∃ msg, SignatureFails P env req msg) ∨
    (∃ stripe rawBody event, Verified P env req stripe rawBody event) := by
  by_cases hm : req.method = "POST"
  · right
    cases hs : P.newStripe env.STRIPE_SECRET_KEY "2024-06-20" with
    | error e => exact Or.inl ⟨hm, .rejected e, by simp [handler, hm, hs]⟩
    | ok stripe =>
      cases hb : readRawBody req with
      | error e => exact Or.inl ⟨hm, .rejected e, by simp [handler, hm, hs, hb]⟩
      | ok raw =>
        cases hv : stripe.constructEvent raw (req.headers.lookup "stripe-signature")
            env.STRIPE_WEBHOOK_SECRET with
        | error msg => exact Or.inr (Or.inl ⟨msg, hm, stripe, raw, hs, hb, hv⟩)
        | ok event => exact Or.inr (Or.inr ⟨stripe, raw, event, hm, hs, hb, hv⟩)
  · exact Or.inl ⟨hm, by simp [handler, hm]⟩

theorem resolveContact_congr {s1 s2 : StripeClient} {event : StripeEvent}
    (h : s1.paymentIntentsRetrieve (event.data_object.getProp "id")
        ["customer", "charges.data.billing_details"] =
      s2.paymentIntentsRetrieve (event.data_object.getProp "id")
        ["customer", "charges.data.billing_details"]) :
    resolveContact s1 event = resolveContact s2 event := by
  simp only [resolveContact, expandOption, h]

theorem sync_congr {P1 P2 : Platform} {env : Env} {event : StripeEvent} {email name : JSVal}
    (h : P1.fetch "https://connect.mailerlite.com/api/subscribers" (upsertInit env email name) =
      P2.fetch "https://connect.mailerlite.com/api/subscribers" (upsertInit env email name)) :
    sync P1 env event email name = sync P2 env event email name := by
  simp only [sync, subscribersUrl, h]

theorem result_of_contact {P : Platform} {env : Env} {req : Request} {stripe : StripeClient}
    {rawBody : List Nat} {event : StripeEvent} {effs : List Effect} {email name : JSVal}
    (hv : Verified P env req stripe rawBody event)
    (h : resolveContact stripe event = (effs, .contact email name)) :
    (handler P env req).result = (sync P env event email name).result := by
  rw [handler_of_verified hv, processEvent_of_contact h]

theorem sync_of_fetch_ok {P : Platform} {env : Env} {event : StripeEvent} {email name : JSVal}
    {resp : FetchResponse} (he : email.truthy = true)
    (hf : P.fetch "https://connect.mailerlite.com/api/subscribers"
      (upsertInit env email name) = .ok resp) :
    (resp.ok = true → (sync P env event email name).result = .responded
      (json200 (.obj [("received", .bool true), ("synced", .bool true)]))) ∧
    (resp.ok = false → ∀ text, resp.text = .ok text →
      (sync P env event email name).result = .responded
        (json200 (.obj [("received", .bool true),
          ("mailerlite_error", .num resp.status)]))) ∧
    (resp.ok = false → ∀ msg, resp.text = .error msg →
      (sync P env event email name).result = .threw (.rejected msg)) := by
  refine ⟨?_, ?_, ?_⟩
  · intro hok
    simp [sync, he, subscribersUrl, hf, hok]
  · intro hok text ht
    simp [sync, he, subscribersUrl, hf, hok, ht]
  · intro hok msg ht
    simp [sync, he, subscribersUrl, hf, hok, ht]

theorem verified_unique {P : Platform} {env : Env} {req : Request}
    {s1 s2 : StripeClient} {r1 r2 : List Nat} {e1 e2 : StripeEvent}
    (h1 : Verified P env req s1 r1 e1) (h2 : Verified P env req s2 r2 e2) :
    s1 = s2 ∧ e1 = e2 := by
  obtain ⟨_, hs1, hb1, hv1⟩ := h1
  obtain ⟨_, hs2, hb2, hv2⟩ := h2
  rw [hs1] at hs2
  injection hs2 with hs2
  subst hs2
  rw [hb1] at hb2
  injection hb2 with hb2
  subst hb2
  rw [hv1] at hv2
  injection hv2 with hv2
  exact ⟨rfl, hv2⟩

theorem sync_threw_iff (P : Platform) (env : Env) (event : StripeEvent) (email name : JSVal) :
    (∃ t, (sync P env event email name).result = .threw t) ↔
      email.truthy = true ∧ UpsertFails P env email name := by
  cases he : email.truthy
  · simp [sync_of_no_email _ _ _ _ _ he]
  · cases hf : P.fetch "https://connect.mailerlite.com/api/subscribers"
        (upsertInit env email name) with
    | error msg => simp [sync, he, subscribersUrl, hf, UpsertFails]
    | ok resp =>
      cases hok : resp.ok
      · cases ht : resp.text with
        | error msg => simp [sync, he, subscribersUrl, hf, UpsertFails, hok, ht]
        | ok text => simp [sync, he, subscribersUrl, hf, UpsertFails, hok, ht]
      · simp [sync, he, subscribersUrl, hf, UpsertFails, hok]

theorem resolve_threw_iff (stripe : StripeClient) (event : StripeEvent) :
    (∃ effs t, resolveContact stripe event = (effs, .threw t)) ↔ LookupFails stripe event := by
  unfold resolveContact LookupFails
  by_cases h1 : event.type = "checkout.session.completed"
  · have h2 : event.type ≠ "payment_intent.succeeded" := by rw [h1]; decide
    simp [h1, h2]
  · by_cases h2 : event.type = "payment_intent.succeeded"
    · simp only [if_neg h1, if_pos h2, expandOption]
      cases ho : event.data_object.isNullish
      · cases hl : stripe.paymentIntentsRetrieve (event.data_object.getProp "id")
            ["customer", "charges.data.billing_details"] with
        | error msg => simp [h2]
        | ok pi => cases hn : pi.isNullish <;> simp [hn, h2]
      · simp [h2]
    · simp [h1, h2]

theorem processEvent_threw_iff (P : Platform) (env : Env) (stripe : StripeClient)
    (event : StripeEvent) :
    (∃ t, (processEvent P env stripe event).result = .threw t) ↔
      (LookupFails stripe event ∨
        ∃ effs e n, resolveContact stripe event = (effs, .contact e n) ∧
          e.truthy = true ∧ UpsertFails P env e n) := by
  rw [← resolve_threw_iff]
  unfold processEvent
  split
  · rename_i effs kind heq
    simp [heq]
  · rename_i effs t heq
    simp [heq]
  · rename_i effs email name heq
    simp only [heq, sync_threw_iff]
    constructor
    · intro h
      exact Or.inr ⟨effs, email, name, rfl, h⟩
    · rintro (⟨_, _, h⟩ | ⟨effs2, e, n, h, h2⟩)
      · cases h
      · injection h with _ h
        injection h with h3 h4
        subst h3
        subst h4
        exact h2

theorem handler_threw_iff (P : Platform) (env : Env) (req : Request) :
    (∃ t, (handler P env req).result = .threw t) ↔ ExternalFailure P env req := by
  by_cases hm : req.method = "POST"
  · cases hs : P.newStripe env.STRIPE_SECRET_KEY "2024-06-20" with
    | error msg =>
      constructor
      · intro _
        exact ⟨hm, Or.inl ⟨msg, hs⟩⟩
      · intro _
        exact ⟨.rejected msg, by simp [handler, hm, hs]⟩
    | ok stripe =>
      cases hb : readRawBody req with
      | error msg =>
        constructor
        · intro _
          exact ⟨hm, Or.inr (Or.inl ⟨stripe, msg, hs, hb⟩)⟩
        · intro _
          exact ⟨.rejected msg, by simp [handler, hm, hs, hb]⟩
      | ok raw =>
        cases hv : stripe.constructEvent raw (req.headers.lookup "stripe-signature")
            env.STRIPE_WEBHOOK_SECRET with
        | error msg =>
          constructor
          · rintro ⟨t, ht⟩
            simp [handler, hm, hs, hb, hv] at ht
          · rintro ⟨_, h | h | h⟩
            · obtain ⟨m, h⟩ := h
              rw [hs] at h
              cases h
            · obtain ⟨s2, m, _, hb2⟩ := h
              rw [hb] at hb2
              cases hb2
            · obtain ⟨s2, r2, e2, ⟨_, hs2, hb2, hv2⟩, _⟩ := h
              rw [hs] at hs2
              injection hs2 with hs2
              subst hs2
              rw [hb] at hb2
              injection hb2 with hb2
              subst hb2
              rw [hv] at hv2
              cases hv2
        | ok event =>
          have hver : Verified P env req stripe raw event := ⟨hm, hs, hb, hv⟩
          rw [handler_of_verified hver]
          simp only [processEvent_threw_iff]
          constructor
          · intro h
            exact ⟨hm, Or.inr (Or.inr ⟨stripe, raw, event, hver, h⟩)⟩
          · rintro ⟨_, h | h | h⟩
            · obtain ⟨m, h⟩ := h
              rw [hs] at h
              cases h
            · obtain ⟨s2, m, _, hb2⟩ := h
              rw [hb] at hb2
              cases hb2
            · obtain ⟨s2, r2, e2, hv2, h⟩ := h
              obtain ⟨hs2, he2⟩ := verified_unique hver hv2
              subst hs2
              subst he2
              exact h
  · constructor
    · rintro ⟨t, ht⟩
      simp [handler, hm] at ht
    · rintro ⟨h, _⟩
      exact absurd h hm

theorem handler_result_total (P : Platform) (env : Env) (req : Request) :
    (∃ r, (handler P env req).result = .responded r) ↔
      ¬ ∃ t, (handler P env req).result = .threw t := by
  cases h : (handler P env req).result with
  | responded r => simp
  | threw t => simp

theorem settle_settle {σ : Type} (W : Outside σ) (s : σ) (a b : List Effect) :
    W.settle (W.settle s a) b = W.settle s (a ++ b) := by
  simp [Outside.settle, List.foldl_append]

theorem invoke_process {σ : Type} (W : Outside σ) (req : Request) (g : ProcessState) (s : σ) :
    (invoke W req g s).2.1 = g := by
  unfold invoke
  split
  · rfl
  · split
    · rfl
    · split
      · rfl
      · split
        · rfl
        · split <;> rfl

theorem invoke_world {σ : Type} (W : Outside σ) (req : Request) (g : ProcessState) (s : σ) :
    (invoke W req g s).2.2 = W.settle s (invoke W req g s).1.effects := by
  unfold invoke
  split
  · rfl
  · split
    · rfl
    · split
      · rfl
      · split
        · rfl
        · split
          · rfl
          · rfl
          · simp only [settle_settle]
            rfl

theorem invoke_outcome {σ : Type} (W : Outside σ) (req : Request) (g : ProcessState) (s : σ)
    (hsame : ∀ effs : List Effect, W.answers (W.settle s effs) = W.answers s) :
    (invoke W req g s).1 = handler (W.answers s) g.env req := by
  unfold invoke handler
  split
  · rfl
  · split
    · rfl
    · split
      · rfl
      · split
        · rfl
        · rename_i stripe _ rawBody _ event _
          unfold processEvent
          split
          · rfl
          · rfl
          · simp only [hsame]

/-! ## The claims -/

/-- C1: a request whose method is not POST is answered with status 405, the
header Allow set to POST and the text body Method Not Allowed, whatever its
body, headers or signature, and nothing else is done: the run has no effects
at all, so no signature verification, lookup or upsert. -/
theorem c1_method_gate (P : Platform) (env : Env) (req : Request)
    (hm : req.method ≠ "POST") :
    (handler P env req).result = .responded
        { status := 405, headers := [("Allow", "POST")], body := .text "Method Not Allowed" } ∧
    (handler P env req).effects = [] := by
  simp [handler, hm]

theorem c1_method_gate_witness :
    signedGet.method ≠ "POST" ∧
    (handler (samplePlatform checkoutEvent (.ok .null) (.ok createdResponse)) sampleEnv
        signedGet).result = .responded
        { status := 405, headers := [("Allow", "POST")], body := .text "Method Not Allowed" } ∧
    (handler (samplePlatform checkoutEvent (.ok .null) (.ok createdResponse)) sampleEnv
        signedGet).effects = [] :=
  ⟨by decide, c1_method_gate _ _ _ (by decide)⟩

/-- C2: a POST whose signature verification throws is answered with status 400
and the text Webhook Error followed by the error message; the run consists of
the verification and one log line, so neither the payment-intent lookup nor
the subscriber upsert is issued. -/
theorem c2_bad_signature (P : Platform) (env : Env) (req : Request) (msg : String)
    (h : SignatureFails P env req msg) :
    (handler P env req).result = .responded
        { status := 400, headers := [], body := .text ("Webhook Error: " ++ msg) } ∧
    (∀ e ∈ (handler P env req).effects, e.isLookup = false ∧ e.isUpsert = false) ∧
    (handler P env req).effects.filter Effect.isVerification =
      [.constructEvent ((req.chunks.map Chunk.toBuffer).flatten)
        (req.headers.lookup "stripe-signature") env.STRIPE_WEBHOOK_SECRET] := by
  obtain ⟨hm, stripe, raw, hs, hb, hv⟩ := h
  have hraw : raw = (req.chunks.map Chunk.toBuffer).flatten := by
    unfold readRawBody at hb
    split at hb
    · cases hb
    · injection hb with hb; exact hb.symm
  subst hraw
  simp [handler, hm, hs, hb, hv, Effect.isLookup, Effect.isUpsert, Effect.isVerification]

theorem c2_bad_signature_witness :
    SignatureFails checkoutPlatform sampleEnv forgedPost
      "No signatures found matching the expected signature for payload" ∧
    (handler checkoutPlatform sampleEnv forgedPost).result = .responded
      { status := 400, headers := []
        body := .text ("Webhook Error: " ++
          "No signatures found matching the expected signature for payload") } :=
  have h : SignatureFails checkoutPlatform sampleEnv forgedPost
      "No signatures found matching the expected signature for payload" :=
    ⟨rfl, sampleStripe checkoutEvent (.error "unused"), [123, 125], rfl, rfl, rfl⟩
  ⟨h, (c2_bad_signature _ _ _ _ h).1⟩

/-- C3: for a verified payment_intent.succeeded event the run contains exactly
one payment-intent lookup, by the id of the event object and expanding customer
and charges.data.billing_details. When the lookup returns a payment intent, the
run is the verification, then the lookup, then the sync of the contact resolved
from the looked-up resource in the order of the specification: email from the
expanded customer object, else receipt_email, else the billing details of the
first charge, else none; name from the expanded customer object, else the
billing details of the first charge, else none. A customer that is an id string
contributes to neither. -/
theorem c3_payment_intent_resolution (P : Platform) (env : Env) (req : Request)
    (stripe : StripeClient) (rawBody : List Nat) (event : StripeEvent)
    (hv : Verified P env req stripe rawBody event)
    (ht : event.type = "payment_intent.succeeded")
    (ho : event.data_object.isNullish = false) :
    (handler P env req).effects.filter Effect.isLookup =
      [.paymentIntentsRetrieve (event.data_object.getProp "id")
        ["customer", "charges.data.billing_details"]] ∧
    ∀ pi : JSVal,
      stripe.paymentIntentsRetrieve (event.data_object.getProp "id")
        ["customer", "charges.data.billing_details"] = .ok pi →
      pi.isNullish = false →
      handler P env req =
        { effects :=
            .constructEvent rawBody (req.headers.lookup "stripe-signature")
                env.STRIPE_WEBHOOK_SECRET ::
              .paymentIntentsRetrieve (event.data_object.getProp "id")
                ["customer", "charges.data.billing_details"] ::
              (sync P env event ((specPaymentEmail pi).getD .null)
                ((specPaymentName pi).getD .null)).effects
          result :=
            (sync P env event ((specPaymentEmail pi).getD .null)
              ((specPaymentName pi).getD .null)).result } ∧
      ∀ id : String, pi.getProp "customer" = .str id →
        specPaymentEmail pi =
          firstNonEmpty [pi.getProp "receipt_email", firstChargeBilling pi "email"] ∧
        specPaymentName pi = firstNonEmpty [firstChargeBilling pi "name"] := by
  have hne : event.type ≠ "checkout.session.completed" := by rw [ht]; decide
  rw [handler_of_verified hv]
  refine ⟨?_, ?_⟩
  · simp only [processEvent, resolveContact, if_neg hne, if_pos ht, ho, expandOption]
    cases hr : stripe.paymentIntentsRetrieve (event.data_object.getProp "id")
        ["customer", "charges.data.billing_details"] with
    | error e => simp [Effect.isLookup]
    | ok pi =>
      cases hn : pi.isNullish
      · simp [hn, Effect.isLookup, sync_lookups]
      · simp [hn, Effect.isLookup]
  · intro pi hr hn
    refine ⟨?_, ?_⟩
    · simp only [processEvent, resolveContact, if_neg hne, if_pos ht, ho, expandOption, hr, hn,
        paymentIntentEmail_eq_spec, paymentIntentName_eq_spec]
      simp
    · intro id hc
      simp [specPaymentEmail, specPaymentName, expandedCustomer, hc, firstNonEmpty,
        JSVal.truthy]

theorem c3_payment_intent_resolution_witness :
    Verified paymentPlatform sampleEnv signedPost
      (sampleStripe paymentEvent (.ok paymentIntentUnexpanded)) [123, 125] paymentEvent ∧
    (handler paymentPlatform sampleEnv signedPost).effects.filter Effect.isLookup =
      [.paymentIntentsRetrieve (.str "pi_1") ["customer", "charges.data.billing_details"]] ∧
    handler paymentPlatform sampleEnv signedPost =
      { effects :=
          .constructEvent [123, 125] (some "t=1,v1=good") (some "whsec_1") ::
            .paymentIntentsRetrieve (.str "pi_1")
              ["customer", "charges.data.billing_details"] ::
            (sync paymentPlatform sampleEnv paymentEvent (.str "b@x.com") (.str "B")).effects
        result :=
          (sync paymentPlatform sampleEnv paymentEvent (.str "b@x.com") (.str "B")).result } :=
  have hv : Verified paymentPlatform sampleEnv signedPost
      (sampleStripe paymentEvent (.ok paymentIntentUnexpanded)) [123, 125] paymentEvent :=
    ⟨rfl, rfl, rfl, rfl⟩
  have h := c3_payment_intent_resolution _ _ _ _ _ _ hv rfl rfl
  ⟨hv, h.1, (h.2 paymentIntentUnexpanded rfl rfl).1⟩

/-- C4: for a verified checkout.session.completed event the run is the
verification followed by the sync of the contact read from the event payload
alone: email is customer_details.email when present and non-empty, else the
top-level customer_email when present and non-empty, else none; name is
customer_details.name when present and non-empty, else none. The run contains
no payment-intent lookup. -/
theorem c4_checkout_resolution (P : Platform) (env : Env) (req : Request)
    (stripe : StripeClient) (rawBody : List Nat) (event : StripeEvent)
    (hv : Verified P env req stripe rawBody event)
    (ht : event.type = "checkout.session.completed") :
    handler P env req =
      { effects :=
          .constructEvent rawBody (req.headers.lookup "stripe-signature")
              env.STRIPE_WEBHOOK_SECRET ::
            (sync P env event
              ((firstNonEmpty [(event.data_object.optMember "customer_details").optMember "email",
                event.data_object.optMember "customer_email"]).getD .null)
              ((firstNonEmpty
                [(event.data_object.optMember "customer_details").optMember "name"]).getD
                  .null)).effects
        result :=
          (sync P env event
            ((firstNonEmpty [(event.data_object.optMember "customer_details").optMember "email",
              event.data_object.optMember "customer_email"]).getD .null)
            ((firstNonEmpty
              [(event.data_object.optMember "customer_details").optMember "name"]).getD
                .null)).result } ∧
    (handler P env req).effects.filter Effect.isLookup = [] := by
  have hr : resolveContact stripe event =
      ([], .contact ((specCheckoutEmail event.data_object).getD .null)
        ((specCheckoutName event.data_object).getD .null)) := by
    simp only [resolveContact, if_pos ht, checkoutEmail_eq_spec, checkoutName_eq_spec]
  rw [handler_of_verified hv, processEvent_of_contact hr]
  refine ⟨?_, ?_⟩
  · simp [specCheckoutEmail, specCheckoutName]
  · simp [Effect.isLookup, sync_lookups]

theorem c4_checkout_resolution_witness :
    Verified checkoutPlatform sampleEnv signedPost
      (sampleStripe checkoutEvent (.error "unused")) [123, 125] checkoutEvent ∧
    handler checkoutPlatform sampleEnv signedPost =
      { effects :=
          .constructEvent [123, 125] (some "t=1,v1=good") (some "whsec_1") ::
            (sync checkoutPlatform sampleEnv checkoutEvent (.str "a@x.com") (.str "A")).effects
        result :=
          (sync checkoutPlatform sampleEnv checkoutEvent (.str "a@x.com") (.str "A")).result } ∧
    (handler checkoutPlatform sampleEnv signedPost).effects.filter Effect.isLookup = [] :=
  have hv : Verified checkoutPlatform sampleEnv signedPost
      (sampleStripe checkoutEvent (.error "unused")) [123, 125] checkoutEvent :=
    ⟨rfl, rfl, rfl, rfl⟩
  ⟨hv, c4_checkout_resolution _ _ _ _ _ _ hv rfl⟩

/-- C5: for a verified event of a recognized kind whose resolved email e is
non-empty and whose resolved name is n, with the API token and the group id
configured, the run contains exactly one subscriber upsert: a POST to the
MailerLite subscribers endpoint with the header Authorization set to Bearer
and the token, and the JSON body with email e, fields holding name n (no name
key when n is empty or none) and groups holding the group id alone. When the
call answers with a success status, the response is 200 with exactly
received true, synced true. -/
theorem c5_upsert_once (P : Platform) (env : Env) (req : Request)
    (stripe : StripeClient) (rawBody : List Nat) (event : StripeEvent)
    (effs : List Effect) (e n : JSVal) (token group : String)
    (hv : Verified P env req stripe rawBody event)
    (hr : resolveContact stripe event = (effs, .contact e n))
    (he : e.truthy = true)
    (htoken : env.MAILERLITE_API_TOKEN = some token)
    (hgroup : env.MAILERLITE_GROUP_ID = some group) :
    (handler P env req).effects.filter Effect.isUpsert =
      [.fetch "https://connect.mailerlite.com/api/subscribers"
        { method := "POST"
          headers := [("Authorization", "Bearer " ++ token),
            ("Content-Type", "application/json")]
          body := .obj [("email", e),
            ("fields", if n.truthy then .obj [("name", n)] else .obj []),
            ("groups", .arr [.str group])] }] ∧
    ∀ resp : FetchResponse,
      P.fetch "https://connect.mailerlite.com/api/subscribers"
        { method := "POST"
          headers := [("Authorization", "Bearer " ++ token),
            ("Content-Type", "application/json")]
          body := .obj [("email", e),
            ("fields", if n.truthy then .obj [("name", n)] else .obj []),
            ("groups", .arr [.str group])] } = .ok resp →
      resp.ok = true →
      (handler P env req).result = .responded
        { status := 200, headers := []
          body := .json (.obj [("received", .bool true), ("synced", .bool true)]) } := by
  have hi : upsertInit env e n =
      { method := "POST"
        headers := [("Authorization", "Bearer " ++ token),
          ("Content-Type", "application/json")]
        body := .obj [("email", e),
          ("fields", if n.truthy then .obj [("name", n)] else .obj []),
          ("groups", .arr [.str group])] } := by
    simp [upsertInit, bearer, groupEntry, upsertFields, htoken, hgroup]
  refine ⟨?_, ?_⟩
  · rw [upserts_of_contact hv hr, sync_upserts_of_email _ _ _ _ _ he, hi]
    rfl
  · intro resp hf hok
    rw [← hi] at hf
    rw [handler_of_verified hv, processEvent_of_contact hr]
    simp [sync, he, subscribersUrl, hf, hok, json200]

theorem c5_upsert_once_witness :
    (handler checkoutPlatform sampleEnv signedPost).effects.filter Effect.isUpsert =
      [.fetch "https://connect.mailerlite.com/api/subscribers"
        { method := "POST"
          headers := [("Authorization", "Bearer " ++ "ml_token_1"),
            ("Content-Type", "application/json")]
          body := .obj [("email", .str "a@x.com"),
            ("fields", .obj [("name", .str "A")]),
            ("groups", .arr [.str "42"])] }] ∧
    (handler checkoutPlatform sampleEnv signedPost).result = .responded
      { status := 200, headers := []
        body := .json (.obj [("received", .bool true), ("synced", .bool true)]) } :=
  have h := c5_upsert_once checkoutPlatform sampleEnv signedPost
    (sampleStripe checkoutEvent (.error "unused")) [123, 125] checkoutEvent []
    (.str "a@x.com") (.str "A") "ml_token_1" "42" ⟨rfl, rfl, rfl, rfl⟩ rfl rfl rfl rfl
  ⟨h.1, h.2 createdResponse rfl rfl⟩

/-- C6: when a verified event of a recognized kind resolves no email (the
resolved email is null, which is what null, missing and empty candidate fields
all yield), the run contains no subscriber upsert and the response is 200 with
exactly received true, skipped no_email. Moreover, in every run of the handler,
every upsert that is issued carries a non-empty email. -/
theorem c6_no_email_no_upsert (P : Platform) (env : Env) (req : Request) :
    (∀ (stripe : StripeClient) (rawBody : List Nat) (event : StripeEvent)
        (effs : List Effect) (e n : JSVal),
      Verified P env req stripe rawBody event →
      resolveContact stripe event = (effs, .contact e n) →
      e.truthy = false →
      (handler P env req).effects.filter Effect.isUpsert = [] ∧
      (handler P env req).result = .responded
        { status := 200, headers := []
          body := .json (.obj [("received", .bool true), ("skipped", .str "no_email")]) }) ∧
    (∀ (url : String) (init : FetchInit),
      Effect.fetch url init ∈ (handler P env req).effects →
      (init.body.getProp "email").truthy = true ∧ init.body.getProp "email" ≠ .str "") := by
  refine ⟨?_, ?_⟩
  · intro stripe raw event effs e n hv hr he
    refine ⟨?_, ?_⟩
    · rw [upserts_of_contact hv hr, sync_of_no_email _ _ _ _ _ he]
      rfl
    · rw [handler_of_verified hv, processEvent_of_contact hr, sync_of_no_email _ _ _ _ _ he]
      rfl
  · intro url init hmem
    have key : ∀ e n : JSVal, e.truthy = true → init = upsertInit env e n →
        (init.body.getProp "email").truthy = true ∧ init.body.getProp "email" ≠ .str "" := by
      intro e n he hi
      have hb : init.body.getProp "email" = e := by
        subst hi
        simp [upsertInit, JSVal.getProp, List.lookup]
      rw [hb]
      refine ⟨he, ?_⟩
      intro hs
      rw [hs] at he
      simp [JSVal.truthy] at he
    rcases handler_cases P env req with h | h | h | h
    · rw [h.2] at hmem; simp at hmem
    · obtain ⟨_, e, he⟩ := h
      rw [he] at hmem; simp at hmem
    · obtain ⟨msg, hm, stripe, raw, hs, hb, hv⟩ := h
      simp [handler, hm, hs, hb, hv] at hmem
    · obtain ⟨stripe, raw, event, hv⟩ := h
      rw [handler_of_verified hv] at hmem
      simp only [List.mem_cons] at hmem
      rcases hmem with hmem | hmem
      · cases hmem
      · have hnr := fetch_not_mem_resolve stripe event url init
        unfold processEvent at hmem
        split at hmem
        · rename_i effs kind heq
          rw [heq] at hnr
          exact absurd hmem hnr
        · rename_i effs e heq
          rw [heq] at hnr
          exact absurd hmem hnr
        · rename_i effs email name heq
          rw [heq] at hnr
          simp only [List.mem_append] at hmem
          rcases hmem with hmem | hmem
          · exact absurd hmem hnr
          · obtain ⟨he, hi⟩ := fetch_mem_sync hmem
            exact key _ _ he hi

theorem c6_no_email_no_upsert_witness :
    Verified (samplePlatform checkoutNoEmail (.error "unused") (.ok createdResponse))
      sampleEnv signedPost (sampleStripe checkoutNoEmail (.error "unused")) [123, 125]
      checkoutNoEmail ∧
    (handler (samplePlatform checkoutNoEmail (.error "unused") (.ok createdResponse))
      sampleEnv signedPost).effects.filter Effect.isUpsert = [] ∧
    (handler (samplePlatform checkoutNoEmail (.error "unused") (.ok createdResponse))
      sampleEnv signedPost).result = .responded
        { status := 200, headers := []
          body := .json (.obj [("received", .bool true), ("skipped", .str "no_email")]) } :=
  have hv : Verified (samplePlatform checkoutNoEmail (.error "unused") (.ok createdResponse))
      sampleEnv signedPost (sampleStripe checkoutNoEmail (.error "unused")) [123, 125]
      checkoutNoEmail := ⟨rfl, rfl, rfl, rfl⟩
  ⟨hv, (c6_no_email_no_upsert _ _ _).1 _ _ _ [] .null (.str "A") hv rfl rfl⟩

/-- C7: a verified event whose kind is neither checkout.session.completed nor
payment_intent.succeeded is answered with 200 and exactly received true,
ignored kind, echoing its own kind, whatever its payload; the run consists of
the signature verification alone, so there is no lookup and no upsert. -/
theorem c7_other_kinds_ignored (P : Platform) (env : Env) (req : Request)
    (stripe : StripeClient) (rawBody : List Nat) (event : StripeEvent)
    (hv : Verified P env req stripe rawBody event)
    (h1 : event.type ≠ "checkout.session.completed")
    (h2 : event.type ≠ "payment_intent.succeeded") :
    (handler P env req).result = .responded
      { status := 200, headers := []
        body := .json (.obj [("received", .bool true), ("ignored", .str event.type)]) } ∧
    (handler P env req).effects =
      [.constructEvent rawBody (req.headers.lookup "stripe-signature")
        env.STRIPE_WEBHOOK_SECRET] ∧
    (handler P env req).effects.filter Effect.isLookup = [] ∧
    (handler P env req).effects.filter Effect.isUpsert = [] := by
  rw [handler_of_verified hv]
  simp [processEvent, resolveContact, h1, h2, json200, Effect.isLookup, Effect.isUpsert]

theorem c7_other_kinds_ignored_witness :
    invoiceEvent.type ≠ "checkout.session.completed" ∧
    invoiceEvent.type ≠ "payment_intent.succeeded" ∧
    (handler (samplePlatform invoiceEvent (.error "unused") (.ok createdResponse))
      sampleEnv signedPost).result = .responded
        { status := 200, headers := []
          body := .json (.obj [("received", .bool true), ("ignored", .str "invoice.paid")]) } ∧
    (handler (samplePlatform invoiceEvent (.error "unused") (.ok createdResponse))
      sampleEnv signedPost).effects =
        [.constructEvent [123, 125] (some "t=1,v1=good") (some "whsec_1")] :=
  have h := c7_other_kinds_ignored
    (samplePlatform invoiceEvent (.error "unused") (.ok createdResponse)) sampleEnv signedPost
    (sampleStripe invoiceEvent (.error "unused")) [123, 125] invoiceEvent ⟨rfl, rfl, rfl, rfl⟩
    (by decide) (by decide)
  ⟨by decide, by decide, h.1, h.2.1⟩

/-- C8, as stated, fails: the handler awaits the text of a non-success upsert
response before it answers, outside any try. On a verified checkout delivery
whose upsert answers 422 and whose response text cannot be read, the handler
sends no response at all. -/
theorem c8_unreadable_text_counterexample :
    Verified (samplePlatform checkoutEvent (.error "unused") (.ok truncatedResponse))
      sampleEnv signedPost (sampleStripe checkoutEvent (.error "unused")) [123, 125]
      checkoutEvent ∧
    resolveContact (sampleStripe checkoutEvent (.error "unused")) checkoutEvent =
      ([], .contact (.str "a@x.com") (.str "A")) ∧
    (samplePlatform checkoutEvent (.error "unused") (.ok truncatedResponse)).fetch
      "https://connect.mailerlite.com/api/subscribers"
      (upsertInit sampleEnv (.str "a@x.com") (.str "A")) = .ok truncatedResponse ∧
    truncatedResponse.ok = false ∧
    truncatedResponse.status = 422 ∧
    (handler (samplePlatform checkoutEvent (.error "unused") (.ok truncatedResponse))
      sampleEnv signedPost).result = .threw (.rejected "terminated") ∧
    ¬ ∃ r : Response,
      (handler (samplePlatform checkoutEvent (.error "unused") (.ok truncatedResponse))
        sampleEnv signedPost).result = .responded r :=
  ⟨⟨rfl, rfl, rfl, rfl⟩, rfl, rfl, by decide, rfl, rfl, fun ⟨_, h⟩ => Result.noConfusion h⟩

/-- C8, amended: for a verified event of a recognized kind with a resolved
non-empty email, when the subscriber upsert answers with a non-success status
s, the run contains that one upsert and no second attempt; when the text of
that answer is read, the response to the webhook caller is 200 with exactly
received true, mailerlite_error s; when reading the text fails, no response is
sent and the error leaves the handler. -/
theorem c8_downstream_error (P : Platform) (env : Env) (req : Request)
    (stripe : StripeClient) (rawBody : List Nat) (event : StripeEvent)
    (effs : List Effect) (e n : JSVal) (resp : FetchResponse)
    (hv : Verified P env req stripe rawBody event)
    (hr : resolveContact stripe event = (effs, .contact e n))
    (he : e.truthy = true)
    (hf : P.fetch "https://connect.mailerlite.com/api/subscribers" (upsertInit env e n) =
      .ok resp)
    (hok : resp.ok = false) :
    (handler P env req).effects.filter Effect.isUpsert =
      [.fetch "https://connect.mailerlite.com/api/subscribers" (upsertInit env e n)] ∧
    (∀ text : String, resp.text = .ok text →
      (handler P env req).result = .responded
        { status := 200, headers := []
          body := .json (.obj [("received", .bool true),
            ("mailerlite_error", .num resp.status)]) }) ∧
    (∀ msg : String, resp.text = .error msg →
      (handler P env req).result = .threw (.rejected msg)) := by
  refine ⟨?_, ?_, ?_⟩
  · rw [upserts_of_contact hv hr, sync_upserts_of_email _ _ _ _ _ he]
    rfl
  · intro text ht
    rw [result_of_contact hv hr, (sync_of_fetch_ok he hf).2.1 hok text ht]
    rfl
  · intro msg ht
    rw [result_of_contact hv hr, (sync_of_fetch_ok he hf).2.2 hok msg ht]

theorem c8_downstream_error_witness :
    unprocessableResponse.ok = false ∧
    (handler (samplePlatform checkoutEvent (.error "unused") (.ok unprocessableResponse))
      sampleEnv signedPost).effects.filter Effect.isUpsert =
        [.fetch "https://connect.mailerlite.com/api/subscribers"
          (upsertInit sampleEnv (.str "a@x.com") (.str "A"))] ∧
    (handler (samplePlatform checkoutEvent (.error "unused") (.ok unprocessableResponse))
      sampleEnv signedPost).result = .responded
        { status := 200, headers := []
          body := .json (.obj [("received", .bool true), ("mailerlite_error", .num 422)]) } :=
  have h := c8_downstream_error
    (samplePlatform checkoutEvent (.error "unused") (.ok unprocessableResponse)) sampleEnv
    signedPost (sampleStripe checkoutEvent (.error "unused")) [123, 125] checkoutEvent []
    (.str "a@x.com") (.str "A") unprocessableResponse
    ⟨rfl, rfl, rfl, rfl⟩ rfl rfl rfl (by decide)
  ⟨by decide, h.1, h.2.1 "The given data was invalid." rfl⟩

/-- C9, as stated, fails: on a verified payment_intent.succeeded delivery
whose payment-intent lookup throws, the handler sends no response at all; the
error leaves the handler uncaught instead of becoming a 200. -/
theorem c9_lookup_failure_counterexample :
    Verified lookupDownPlatform sampleEnv signedPost
      (sampleStripe paymentEvent (.error "No such payment_intent: pi_1")) [123, 125]
      paymentEvent ∧
    (handler lookupDownPlatform sampleEnv signedPost).result =
      .threw (.rejected "No such payment_intent: pi_1") ∧
    ¬ ∃ r : Response, (handler lookupDownPlatform sampleEnv signedPost).result = .responded r :=
  ⟨⟨rfl, rfl, rfl, rfl⟩, rfl, fun ⟨_, h⟩ => Result.noConfusion h⟩

/-- C9, amended: every run of the handler ends, with a response or with an
uncaught exception, and it ends with a response exactly when none of the
external steps awaited outside a try throws (building the Stripe client,
reading the body, the payment-intent lookup, the subscriber upsert and the
reading of the text of its non-success answer). A response has status 405, 400
or 200, never a 5xx: 405 exactly when the method is not POST, 400 exactly when
the method is POST and signature verification fails, 200 exactly for a verified
event none of whose external steps throws. So an ignored kind, a missing email,
a successful upsert and an upsert with a non-success status whose text is read
are all answered 200, each with its own SyncResult body, and every 200 body is
one of the four SyncResult shapes. When the payment-intent lookup throws, no
response is sent and the error leaves the handler. -/
theorem c9_response_statuses (P : Platform) (env : Env) (req : Request) :
    ((∃ r : Response, (handler P env req).result = .responded r) ↔
      ¬ ExternalFailure P env req) ∧
    ((∃ t : Thrown, (handler P env req).result = .threw t) ↔ ExternalFailure P env req) ∧
    (∀ r : Response, (handler P env req).result = .responded r →
      (r.status = 405 ∨ r.status = 400 ∨ r.status = 200) ∧ r.status < 500 ∧
      (r.status = 200 → IsSyncResult r.body)) ∧
    ((∃ r : Response, (handler P env req).result = .responded r ∧ r.status = 405) ↔
      req.method ≠ "POST") ∧
    ((∃ r : Response, (handler P env req).result = .responded r ∧ r.status = 400) ↔
      ∃ msg, SignatureFails P env req msg) ∧
    ((∃ r : Response, (handler P env req).result = .responded r ∧ r.status = 200) ↔
      (∃ stripe rawBody event, Verified P env req stripe rawBody event) ∧
        ¬ ExternalFailure P env req) ∧
    (∀ (stripe : StripeClient) (rawBody : List Nat) (event : StripeEvent),
      Verified P env req stripe rawBody event →
      (event.type ≠ "checkout.session.completed" →
        event.type ≠ "payment_intent.succeeded" →
        (handler P env req).result = .responded
          { status := 200, headers := []
            body := .json (.obj [("received", .bool true), ("ignored", .str event.type)]) }) ∧
      (∀ (effs : List Effect) (e n : JSVal),
        resolveContact stripe event = (effs, .contact e n) →
        (e.truthy = false →
          (handler P env req).result = .responded
            { status := 200, headers := []
              body := .json (.obj [("received", .bool true),
                ("skipped", .str "no_email")]) }) ∧
        (∀ resp : FetchResponse, e.truthy = true →
          P.fetch "https://connect.mailerlite.com/api/subscribers" (upsertInit env e n) =
            .ok resp →
          (resp.ok = true →
            (handler P env req).result = .responded
              { status := 200, headers := []
                body := .json (.obj [("received", .bool true), ("synced", .bool true)]) }) ∧
          (resp.ok = false → ∀ text : String, resp.text = .ok text →
            (handler P env req).result = .responded
              { status := 200, headers := []
                body := .json (.obj [("received", .bool true),
                  ("mailerlite_error", .num resp.status)]) }))) ∧
      (∀ msg : String, event.type = "payment_intent.succeeded" →
        event.data_object.isNullish = false →
        stripe.paymentIntentsRetrieve (event.data_object.getProp "id")
          ["customer", "charges.data.billing_details"] = .error msg →
        (handler P env req).result = .threw (.rejected msg))) := by
  have hall : ∀ r : Response, (handler P env req).result = .responded r →
      (r.status = 405 ∧ req.method ≠ "POST") ∨
      (r.status = 400 ∧ ∃ msg, SignatureFails P env req msg) ∨
      (r.status = 200 ∧ IsSyncResult r.body ∧
        ∃ stripe rawBody event, Verified P env req stripe rawBody event) := by
    intro r hres
    rcases handler_cases P env req with h | h | h | h
    · rw [h.2] at hres
      injection hres with hres
      subst hres
      exact Or.inl ⟨rfl, h.1⟩
    · obtain ⟨_, e, he⟩ := h
      rw [he] at hres
      cases hres
    · obtain ⟨msg, hsf⟩ := h
      rw [handler_of_signature_fails hsf] at hres
      injection hres with hres
      subst hres
      exact Or.inr (Or.inl ⟨rfl, msg, hsf⟩)
    · obtain ⟨stripe, raw, event, hv⟩ := h
      have hres2 := hres
      rw [handler_of_verified hv] at hres2
      have h200 := processEvent_result _ _ _ _ _ hres2
      exact Or.inr (Or.inr ⟨h200.1, h200.2, stripe, raw, event, hv⟩)
  have hresp : (∃ r : Response, (handler P env req).result = .responded r) ↔
      ¬ ExternalFailure P env req := by
    rw [handler_result_total, handler_threw_iff]
  refine ⟨hresp, handler_threw_iff P env req, ?_, ?_, ?_, ?_, ?_⟩
  · intro r hres
    rcases hall r hres with h | h | h
    · exact ⟨Or.inl h.1, by omega, fun h2 => by omega⟩
    · exact ⟨Or.inr (Or.inl h.1), by omega, fun h2 => by omega⟩
    · exact ⟨Or.inr (Or.inr h.1), by omega, fun _ => h.2.1⟩
  · constructor
    · rintro ⟨r, hres, hst⟩
      rcases hall r hres with h | h | h
      · exact h.2
      · omega
      · omega
    · intro hm
      exact ⟨Response.mk 405 [("Allow", "POST")] (.text "Method Not Allowed"),
        by simp [handler, hm], rfl⟩
  · constructor
    · rintro ⟨r, hres, hst⟩
      rcases hall r hres with h | h | h
      · omega
      · exact h.2
      · omega
    · rintro ⟨msg, hsf⟩
      exact ⟨_, handler_of_signature_fails hsf, rfl⟩
  · constructor
    · rintro ⟨r, hres, hst⟩
      refine ⟨?_, hresp.1 ⟨r, hres⟩⟩
      rcases hall r hres with h | h | h
      · omega
      · omega
      · exact h.2.2
    · rintro ⟨⟨stripe, raw, event, hv⟩, hno⟩
      obtain ⟨r, hres⟩ := hresp.2 hno
      have hres2 := hres
      rw [handler_of_verified hv] at hres2
      exact ⟨r, hres, (processEvent_result _ _ _ _ _ hres2).1⟩
  · intro stripe raw event hv
    refine ⟨?_, ?_, ?_⟩
    · intro h1 h2
      rw [handler_of_verified hv]
      simp [processEvent, resolveContact, h1, h2, json200]
    · intro effs e n hr
      refine ⟨?_, ?_⟩
      · intro he
        rw [result_of_contact hv hr, sync_of_no_email _ _ _ _ _ he]
        rfl
      · intro resp he hf
        refine ⟨?_, ?_⟩
        · intro hok
          rw [result_of_contact hv hr, (sync_of_fetch_ok he hf).1 hok]
          rfl
        · intro hok text ht
          rw [result_of_contact hv hr, (sync_of_fetch_ok he hf).2.1 hok text ht]
          rfl
    · intro msg ht ho hl
      have hne : event.type ≠ "checkout.session.completed" := by rw [ht]; decide
      rw [handler_of_verified hv]
      simp only [processEvent, resolveContact, if_neg hne, if_pos ht, ho, expandOption, hl]
      simp

theorem c9_response_statuses_witness :
    (handler (samplePlatform invoiceEvent (.error "unused") (.ok createdResponse))
      sampleEnv signedPost).result = .responded
        { status := 200, headers := []
          body := .json (.obj [("received", .bool true), ("ignored", .str "invoice.paid")]) } ∧
    (handler (samplePlatform checkoutEvent (.error "unused") (.ok unprocessableResponse))
      sampleEnv signedPost).result = .responded
        { status := 200, headers := []
          body := .json (.obj [("received", .bool true), ("mailerlite_error", .num 422)]) } ∧
    (handler lookupDownPlatform sampleEnv signedPost).result =
      .threw (.rejected "No such payment_intent: pi_1") :=
  ⟨((c9_response_statuses (samplePlatform invoiceEvent (.error "unused") (.ok createdResponse))
      sampleEnv signedPost).2.2.2.2.2.2 (sampleStripe invoiceEvent (.error "unused"))
      [123, 125] invoiceEvent ⟨rfl, rfl, rfl, rfl⟩).1 (by decide) (by decide),
    ((((c9_response_statuses
      (samplePlatform checkoutEvent (.error "unused") (.ok unprocessableResponse)) sampleEnv
      signedPost).2.2.2.2.2.2 (sampleStripe checkoutEvent (.error "unused")) [123, 125]
      checkoutEvent ⟨rfl, rfl, rfl, rfl⟩).2.1 [] (.str "a@x.com") (.str "A") rfl).2
      unprocessableResponse rfl rfl).2 (by decide) "The given data was invalid." rfl,
    ((c9_response_statuses lookupDownPlatform sampleEnv signedPost).2.2.2.2.2.2
      (sampleStripe paymentEvent (.error "No such payment_intent: pi_1")) [123, 125]
      paymentEvent ⟨rfl, rfl, rfl, rfl⟩).2.2 "No such payment_intent: pi_1" rfl rfl rfl⟩

/-- C10: the handler carries no state from one delivery to the next. Run in a
process against services that keep giving the same answers, a delivery of a
verified event with a resolvable email leaves `process.env` and the module
scope exactly as it found them, and its outcome does not depend on the module
scope. Delivering the same request again, in the process state and the service
state the first delivery left behind, gives the same effects and the same
response as the first delivery; each of the two runs issues its own upsert with
the same request contents, so the services receive the effects of the run
twice: nothing is deduplicated. -/
theorem c10_redelivery {σ : Type} (W : Outside σ) (req : Request) (g : ProcessState) (s : σ)
    (stripe : StripeClient) (rawBody : List Nat) (event : StripeEvent)
    (effs : List Effect) (e n : JSVal)
    (hsame : ∀ done : List Effect, W.answers (W.settle s done) = W.answers s)
    (hv : Verified (W.answers s) g.env req stripe rawBody event)
    (hr : resolveContact stripe event = (effs, .contact e n))
    (he : e.truthy = true) :
    (invoke W req g s).1 = handler (W.answers s) g.env req ∧
    (invoke W req g s).2.1 = g ∧
    (∀ scope : List (String × JSVal),
      (invoke W req { env := g.env, moduleScope := scope } s).1 = (invoke W req g s).1) ∧
    (invoke W req (invoke W req g s).2.1 (invoke W req g s).2.2).1 = (invoke W req g s).1 ∧
    (invoke W req (invoke W req g s).2.1 (invoke W req g s).2.2).2.1 = g ∧
    (invoke W req g s).1.effects.filter Effect.isUpsert =
      [.fetch "https://connect.mailerlite.com/api/subscribers" (upsertInit g.env e n)] ∧
    (invoke W req (invoke W req g s).2.1 (invoke W req g s).2.2).1.effects.filter
        Effect.isUpsert =
      [.fetch "https://connect.mailerlite.com/api/subscribers" (upsertInit g.env e n)] ∧
    (invoke W req (invoke W req g s).2.1 (invoke W req g s).2.2).2.2 =
      W.settle (W.settle s (handler (W.answers s) g.env req).effects)
        (handler (W.answers s) g.env req).effects := by
  have h1 : (invoke W req g s).1 = handler (W.answers s) g.env req :=
    invoke_outcome W req g s hsame
  have hg : (invoke W req g s).2.1 = g := invoke_process W req g s
  have hw : (invoke W req g s).2.2 = W.settle s (handler (W.answers s) g.env req).effects := by
    rw [invoke_world, h1]
  have hsame2 : ∀ done : List Effect,
      W.answers (W.settle (W.settle s (handler (W.answers s) g.env req).effects) done) =
        W.answers (W.settle s (handler (W.answers s) g.env req).effects) := by
    intro done
    rw [settle_settle, hsame, hsame]
  have h2 : (invoke W req (invoke W req g s).2.1 (invoke W req g s).2.2).1 =
      handler (W.answers s) g.env req := by
    rw [hg, hw, invoke_outcome W req g _ hsame2, hsame]
  have hups : (handler (W.answers s) g.env req).effects.filter Effect.isUpsert =
      [.fetch "https://connect.mailerlite.com/api/subscribers" (upsertInit g.env e n)] := by
    rw [upserts_of_contact hv hr, sync_upserts_of_email _ _ _ _ _ he]
    rfl
  refine ⟨h1, hg, ?_, ?_, ?_, ?_, ?_, ?_⟩
  · intro scope
    rw [h1]
    exact invoke_outcome W req { env := g.env, moduleScope := scope } s hsame
  · rw [h2, h1]
  · rw [invoke_process W req (invoke W req g s).2.1 (invoke W req g s).2.2]
    exact hg
  · rw [h1]
    exact hups
  · rw [h2]
    exact hups
  · rw [invoke_world, h2, hw]

theorem c10_redelivery_witness :
    (invoke recordingService signedPost sampleProcess []).2.1 = sampleProcess ∧
    (invoke recordingService signedPost
      (invoke recordingService signedPost sampleProcess []).2.1
      (invoke recordingService signedPost sampleProcess []).2.2).1 =
        (invoke recordingService signedPost sampleProcess []).1 ∧
    (invoke recordingService signedPost
      (invoke recordingService signedPost sampleProcess []).2.1
      (invoke recordingService signedPost sampleProcess []).2.2).2.2 =
        [.str "a@x.com", .str "a@x.com"] :=
  have h := c10_redelivery recordingService signedPost sampleProcess []
    (sampleStripe checkoutEvent (.error "unused")) [123, 125] checkoutEvent []
    (.str "a@x.com") (.str "A") (fun _ => rfl) ⟨rfl, rfl, rfl, rfl⟩ rfl rfl
  ⟨h.2.1, h.2.2.2.1, h.2.2.2.2.2.2.2⟩

end StripeWebhook
